import Mathlib

/-!
Shallow embedding of the orchestration-coordination core of the
io-functions-cgn repository, together with proofs of the frozen claims
about it.

Conventions of the embedding:
- TypeScript string values become Lean `String`.
- Fallible calls (fp-ts `Either` / `TaskEither`) become `Except String α`,
  keeping only the error message of the `Error` object.
- External collaborators (the durable-functions client, CosmosDB, Redis,
  the table store) are passed in as explicit result values, so the
  embedded functions stay pure and executable while following the source
  control flow exactly.
- Side effects that the source performs through the context logger or the
  durable-functions client are recorded as explicit event values.
-/

set_option autoImplicit false
set_option maxRecDepth 8192

/-! ## Failure classifier (src/unnamed/part_000, second module: utils/errors) -/

/-- The two io-ts literal tags of the failure union. -/
inductive FailureKind where
  | TRANSIENT
  | PERMANENT
deriving DecidableEq, Repr

/-- `Failure = TransientFailure | PermanentFailure`: a kind tag plus a reason
string, as encoded by the io-ts union in the source. -/
structure Failure where
  kind : FailureKind
  reason : String
deriving DecidableEq, Repr

/-- `TransientFailure.is` of io-ts: holds exactly when the kind tag is
`TRANSIENT`. -/
def TransientFailure.is (f : Failure) : Bool :=
  f.kind == FailureKind.TRANSIENT

/-- `PermanentFailure.is` of io-ts: holds exactly when the kind tag is
`PERMANENT`. -/
def PermanentFailure.is (f : Failure) : Bool :=
  f.kind == FailureKind.PERMANENT

/-- `toTransientFailure(err, customReason?)`: builds the error message from the
optional custom reason exactly as the fp-ts pipe in the source does, then tags
it `TRANSIENT` under the fixed prefix. The `Error` argument is represented by
its message. -/
def toTransientFailure (errMessage : String) (customReason : Option String) :
    Failure :=
  let errorMsg :=
    (customReason.map
      (fun reason => "ERROR=" ++ reason ++ " DETAIL=" ++ errMessage)).getD
      ("ERROR=" ++ errMessage)
  { kind := FailureKind.TRANSIENT, reason := "TRANSIENT FAILURE|" ++ errorMsg }

/-- `toPermanentFailure(err, customReason?)`: same message construction as the
transient case, tagged `PERMANENT` under its fixed prefix. -/
def toPermanentFailure (errMessage : String) (customReason : Option String) :
    Failure :=
  let errorMsg :=
    (customReason.map
      (fun reason => "ERROR=" ++ reason ++ " DETAIL=" ++ errMessage)).getD
      ("ERROR=" ++ errMessage)
  { kind := FailureKind.PERMANENT, reason := "PERMANENT FAILURE|" ++ errorMsg }

/-- The `{kind: "FAILURE", reason}` activity result returned by `trackFailure`
in the permanent case. -/
structure ActivityResultFailure where
  kind : String
  reason : String
deriving DecidableEq, Repr

/-- Observable outcome of `trackFailure`: either the function throws (the
thrown `Error` is kept as its message) or it returns an activity result. -/
inductive TrackOutcome where
  | thrown (message : String)
  | returned (result : ActivityResultFailure)
deriving DecidableEq, Repr

/-- `trackFailure(context, logPrefix)(err)` without the telemetry and logging
side effects, which are out of scope: on a `TransientFailure` it throws
`new Error(err.reason)`; otherwise it returns `{kind: "FAILURE", reason}`. -/
def trackFailure (err : Failure) : TrackOutcome :=
  if TransientFailure.is err then
    TrackOutcome.thrown err.reason
  else
    TrackOutcome.returned { kind := "FAILURE", reason := err.reason }

/-! ## Orchestration instance ids and running check (src/utils/orchestrators.ts) -/

/-- Fiscal codes are opaque user identifiers in this core. -/
abbrev FiscalCode := String

/-- `makeRevokeCgnOrchestratorId(fiscalCode)` from src/utils/orchestrators.ts. -/
def makeRevokeCgnOrchestratorId (fiscalCode : FiscalCode) : String :=
  fiscalCode ++ "-REVOKE"

/-- Card status values used as orchestration targets. -/
inductive CgnStatusEnum where
  | PENDING
  | ACTIVATED
  | REVOKED
  | EXPIRED
deriving DecidableEq, Repr

/-- Modelled from the spec: `makeUpdateCgnOrchestratorId(fiscalCode, status)`
is imported from `utils/orchestrators` by both handlers but its definition is
not among the provided source files. Spec section 6 fixes the id format:
`"{userId}-REVOKE"` for both REVOKE and EXPIRE targets (shared namespace) and
a distinct scheme for the activation family, which we render as
`"{userId}-ACTIVATE"`; PENDING is the entry point of the activation pipeline
and shares it. -/
def makeUpdateCgnOrchestratorId (fiscalCode : FiscalCode)
    (cgnStatus : CgnStatusEnum) : String :=
  match cgnStatus with
  | CgnStatusEnum.REVOKED => fiscalCode ++ "-REVOKE"
  | CgnStatusEnum.EXPIRED => fiscalCode ++ "-REVOKE"
  | CgnStatusEnum.ACTIVATED => fiscalCode ++ "-ACTIVATE"
  | CgnStatusEnum.PENDING => fiscalCode ++ "-ACTIVATE"

/-- `df.OrchestrationRuntimeStatus` of the durable-functions runtime. -/
inductive OrchestrationRuntimeStatus where
  | Running
  | Pending
  | Completed
  | ContinuedAsNew
  | Failed
  | Canceled
  | Terminated
deriving DecidableEq, Repr

/-- The status record returned by `client.getStatus`, reduced to the field the
source reads. -/
structure DurableOrchestrationStatus where
  runtimeStatus : OrchestrationRuntimeStatus
deriving DecidableEq, Repr

/-- The augmented record produced by `isOrchestratorRunning`. -/
structure OrchestratorStatusWithRunning where
  runtimeStatus : OrchestrationRuntimeStatus
  isRunning : Bool
deriving DecidableEq, Repr

/-- `isOrchestratorRunning(client, orchestratorId)`: the `tryCatch` around
`client.getStatus` is represented by the call result passed in; on success the
status is augmented with `isRunning`, true exactly on `Running` or `Pending`. -/
def isOrchestratorRunning
    (getStatusResult : Except String DurableOrchestrationStatus) :
    Except String OrchestratorStatusWithRunning :=
  getStatusResult.map fun status =>
    { runtimeStatus := status.runtimeStatus
      isRunning :=
        status.runtimeStatus == OrchestrationRuntimeStatus.Running ||
        status.runtimeStatus == OrchestrationRuntimeStatus.Pending }

/-! ## Expiration sweep (src/UpdateExpiredCgn/handler.ts) -/

/-- Observable events of the sweep handler: context-logger lines and
durable-functions client calls. -/
inductive SweepEvent where
  | logVerbose (message : String)
  | logInfo (message : String)
  | logError (message : String)
  | terminate (instanceId : String) (reason : String)
  | startNew (orchestratorName : String) (instanceId : String)
deriving DecidableEq, Repr

/-- The fixed termination reason of src/UpdateExpiredCgn/handler.ts line 30. -/
def ORCHESTRATION_TERMINATION_REASON : String :=
  "An highest priority CGN update orchestrator needs to start"

/-- Modelled from the spec: `terminateOrchestratorTask(client, fiscalCode,
status, reason)` is imported from `utils/orchestrators` but its definition is
not among the provided source files. Per spec sections 4.2 and 4.4 it
terminates the instance of the (fiscalCode, status) namespace with the given
reason, best-effort: an error is logged and not propagated. The host call
outcome is passed in as `ok`. -/
def terminateOrchestratorTask (fiscalCode : FiscalCode)
    (status : CgnStatusEnum) (reason : String) (ok : Bool) : List SweepEvent :=
  SweepEvent.terminate (makeUpdateCgnOrchestratorId fiscalCode status) reason ::
    (if ok then [] else
      [SweepEvent.logError
        ("Error while terminating other orchestrators for fiscalCode=" ++
          fiscalCode.take 6)])

/-- The body of the per-user `forEach` of `getUpdateExpiredCgnHandler`: first
terminate the ACTIVATED-namespace instance, then the REVOKED-namespace
instance, both with the fixed reason, then log and start the
`UpdateCgnOrchestrator` EXPIRED instance; a start failure is logged via
`mapLeft`. The three host-call outcomes are passed in as booleans. -/
def processExpiredUser (fiscalCode : FiscalCode)
    (termActivatedOk termRevokedOk startOk : Bool) : List SweepEvent :=
  terminateOrchestratorTask fiscalCode CgnStatusEnum.ACTIVATED
      ORCHESTRATION_TERMINATION_REASON termActivatedOk ++
    terminateOrchestratorTask fiscalCode CgnStatusEnum.REVOKED
      ORCHESTRATION_TERMINATION_REASON termRevokedOk ++
    [SweepEvent.logInfo
      ("UpdateExpiredCgnHandler| Starting new expire orchestrator for fiscalCode=" ++
        fiscalCode.take 6),
     SweepEvent.startNew "UpdateCgnOrchestrator"
       (makeUpdateCgnOrchestratorId fiscalCode CgnStatusEnum.EXPIRED)] ++
    (if startOk then [] else
      [SweepEvent.logError
        ("UpdateExpiredCgnHandler|Error while starting CGN expiration for fiscalCode=" ++
          fiscalCode.take 6)])

/-- `getUpdateExpiredCgnHandler(tableService, tableName)(context)`: the
`getExpiredCgnUsers` query result for today is passed in; on a Left the error
is logged verbose and the handler finishes; otherwise each expired user is
processed. The per-user host-call outcomes are given by the three oracles. -/
def getUpdateExpiredCgnHandler
    (queryResult : Except String (List FiscalCode))
    (termActivatedOk termRevokedOk startOk : FiscalCode → Bool) :
    List SweepEvent :=
  match queryResult with
  | Except.error e =>
      [SweepEvent.logVerbose ("UpdateExpiredCgnHandler|ERROR=" ++ e)]
  | Except.ok expiredCgnUsers =>
      SweepEvent.logInfo
        ("UpdateExpiredCgnHandler|Processing " ++
          toString expiredCgnUsers.length ++ " expired CGNs") ::
      expiredCgnUsers.flatMap
        (fun fc =>
          processExpiredUser fc (termActivatedOk fc) (termRevokedOk fc)
            (startOk fc))

/-- An event is an orchestration effect when it is a host `terminate` or
`startNew` call (log lines are not). -/
def SweepEvent.isOrchestrationEffect : SweepEvent → Bool
  | SweepEvent.terminate _ _ => true
  | SweepEvent.startNew _ _ => true
  | _ => false

/-! ## Status upsert handler (src/unnamed/part_000, first module:
UpsertCgnStatus/handler) -/

/-- The two accepted actions of the upsert payload. -/
inductive ActionEnum where
  | ACTIVATE
  | REVOKE
deriving DecidableEq, Repr

/-- `CgnStatusUpsertRequest`: the inbound payload
`{action, revocation_reason?}` of spec section 6. -/
structure CgnStatusUpsertRequest where
  action : ActionEnum
  revocation_reason : Option String
deriving DecidableEq, Repr

/-- Modelled from the spec: `CgnStatusRevocationRequest` is a generated
definition not among the provided source files. Per spec section 6 the
revocation shape requires `action == "REVOKE"` together with its
`revocation_reason`; `.is` holds exactly for such payloads. -/
def CgnStatusRevocationRequest.is (r : CgnStatusUpsertRequest) : Bool :=
  r.action == ActionEnum.REVOKE && r.revocation_reason.isSome

/-- The new card status computed by `toCgnStatus`; `new Date()` is passed in
as the `revocation_date` data. -/
structure CgnStatus where
  status : CgnStatusEnum
  revocation_date : Option Nat := none
  revocation_reason : Option String := none
deriving DecidableEq, Repr

/-- `toCgnStatus(cgnStatusUpsertRequest)`: a REVOKE action yields the REVOKED
status with the revocation date and reason; any other action yields the
PENDING status (entry point of the activation process). -/
def toCgnStatus (now : Nat) (cgnStatusUpsertRequest : CgnStatusUpsertRequest) :
    CgnStatus :=
  if cgnStatusUpsertRequest.action == ActionEnum.REVOKE then
    { status := CgnStatusEnum.REVOKED
      revocation_date := some now
      revocation_reason := cgnStatusUpsertRequest.revocation_reason }
  else
    { status := CgnStatusEnum.PENDING }

/-- The abstract response classes of the handler (spec section 6). -/
inductive UpsertResponse where
  | accepted
  | redirectToResource (instanceId : String) (resourcePath : String)
  | notFound
  | forbiddenNotAuthorized
  | internalError (message : String)
deriving DecidableEq, Repr

/-- Modelled from the spec: `checkUpdateCgnIsRunning` is imported from
`utils/orchestrators` but its definition is not among the provided source
files. Per spec section 4.2 the guard queries the running state of the
instance: a Running or Pending instance yields AlreadyInProgress (surfaced as
the Accepted response), otherwise the caller is clear to start; a query
failure is surfaced as an error response. -/
inductive GuardOutcome where
  | alreadyInProgress
  | clearToStart
  | queryError (message : String)
deriving DecidableEq, Repr

/-- Modelled from the spec: the guard decision as a function of the host
`getStatus` result (see `GuardOutcome`). -/
def checkUpdateCgnIsRunning
    (getStatusResult : Except String DurableOrchestrationStatus) :
    GuardOutcome :=
  match isOrchestratorRunning getStatusResult with
  | Except.error e => GuardOutcome.queryError e
  | Except.ok st =>
      if st.isRunning then GuardOutcome.alreadyInProgress
      else GuardOutcome.clearToStart

/-- `UpsertCgnStatusHandler(userCgnModel)`: the full fp-ts chain of the
source handler. The collaborator results are passed in:
`findLastVersionResult` for `userCgnModel.findLastVersionByModelId`
(`Option Unit` stands for the optional user record, whose payload the handler
never reads), `guardStatusResult` for the guard query, and `startOk` for
`client.startNew`. The chain: the payload must satisfy the revocation-request
predicate, else ForbiddenNotAuthorized; a find failure is an internal error; a
missing record is NotFound; a running instance is Accepted; otherwise the
orchestrator is started and a redirect (or internal error) is returned. -/
def UpsertCgnStatusHandler (fiscalCode : FiscalCode)
    (cgnStatusUpsertRequest : CgnStatusUpsertRequest)
    (findLastVersionResult : Except String (Option Unit))
    (guardStatusResult : Except String DurableOrchestrationStatus)
    (startOk : Bool) : UpsertResponse :=
  let orchestratorId :=
    makeUpdateCgnOrchestratorId fiscalCode CgnStatusEnum.REVOKED
  if ¬ CgnStatusRevocationRequest.is cgnStatusUpsertRequest then
    UpsertResponse.forbiddenNotAuthorized
  else
    match findLastVersionResult with
    | Except.error _ =>
        UpsertResponse.internalError "Cannot retrieve CGN infos for this user"
    | Except.ok none => UpsertResponse.notFound
    | Except.ok (some _) =>
        match checkUpdateCgnIsRunning guardStatusResult with
        | GuardOutcome.alreadyInProgress => UpsertResponse.accepted
        | GuardOutcome.queryError e => UpsertResponse.internalError e
        | GuardOutcome.clearToStart =>
            if startOk then
              UpsertResponse.redirectToResource orchestratorId
                ("/api/v1/cgn/status/" ++ fiscalCode)
            else
              UpsertResponse.internalError "Cannot start UpdateCgnOrchestrator"

/-! ## Delete-all-versions activity (modelled from the spec; src holds only
its tests, src/DeleteEycaActivity/__tests__/handler.test.ts) -/

/-- Result of an activity run. -/
inductive ActivityResult where
  | success
  | failure (reason : String)
deriving DecidableEq, Repr

/-- Sequencing of the per-record delete results in record order: the first
Left is the overall outcome, and all-Rights yield a Right (fp-ts
`array.sequence(taskEither)` over the already-built tasks). -/
def sequenceDeleteResults : List (Except String Unit) → Except String Unit
  | [] => Except.ok ()
  | Except.error e :: _ => Except.error e
  | Except.ok _ :: rest => sequenceDeleteResults rest

/-- Modelled from the spec: `getDeleteEycaActivityHandler(userEycaCardModel)`
(its source is not among the provided files; only its tests are). Behaviour
pinned by spec section 4.5 and the tests: a failed input decode is a failure
with no find or delete call; a `findAll` failure is a failure carrying the
underlying message with zero delete calls. Otherwise the handler maps
`deleteVersion` over every found record — one call per record, building one
result per record before sequencing them, which is why the staged test with
two records and a failing first delete still observes two `deleteVersion`
calls — and the sequenced outcome is the first failing delete's message, or
SUCCESS when every delete succeeded. The second component counts the
`deleteVersion` calls made. -/
def getDeleteEycaActivityHandler (decodeOk : Bool)
    (findAllResult : Except String (List String))
    (delete : String → Except String Unit) : ActivityResult × Nat :=
  if ¬ decodeOk then
    (ActivityResult.failure "Error while decoding input", 0)
  else
    match findAllResult with
    | Except.error e => (ActivityResult.failure e, 0)
    | Except.ok cards =>
        (match sequenceDeleteResults (cards.map delete) with
          | Except.error e => ActivityResult.failure e
          | Except.ok _ => ActivityResult.success,
          cards.length)

/-! ## Redis storage (src/utils/redis_storage.ts) -/

/-- `singleStringReply(err, reply)`: an error reply becomes a Left; otherwise
the boolean says whether the reply was the simple string "OK". -/
def singleStringReply (err : Option String) (reply : Option String) :
    Except String Bool :=
  match err with
  | some e => Except.error e
  | none => Except.ok (reply == some "OK")

/-- `falsyResponseToError(response, error)`: a Left passes through; a Right
true stays Right true; a Right false becomes the given error. -/
def falsyResponseToError (response : Except String Bool) (error : String) :
    Except String Bool :=
  match response with
  | Except.error e => Except.error e
  | Except.ok b => if b then Except.ok true else Except.error error

/-- The message chosen by `new Error(errorMsg ? errorMsg : "Error setting key
value pair on redis")`: JavaScript truthiness, so an absent and an empty
`errorMsg` both fall back to the default. -/
def setErrorMessage (errorMsg : Option String) : String :=
  match errorMsg with
  | some s => if s == "" then "Error setting key value pair on redis" else s
  | none => "Error setting key value pair on redis"

/-- `setWithExpirationTask(redisClient, key, value, expirationInSeconds,
errorMsg?)`: the Redis `SET key value EX seconds` callback pair
(err, response) is passed in; the reply is parsed by `singleStringReply` and a
falsy response is turned into an error with the chosen message. The key,
value and TTL only flow to Redis and do not affect the returned value. -/
def setWithExpirationTask (key value : String) (expirationInSeconds : Nat)
    (err : Option String) (reply : Option String) (errorMsg : Option String) :
    Except String Bool :=
  let _ := key
  let _ := value
  let _ := expirationInSeconds
  falsyResponseToError (singleStringReply err reply) (setErrorMessage errorMsg)

/-! ## Configuration loading (src/utils/config.ts) -/

/-- Reassociating a string concatenation so that two adjacent literals merge. -/
theorem append_left_merge {a b c : String} (h : a ++ b = c) (s : String) :
    a ++ (b ++ s) = c ++ s := by
  rw [← String.append_assoc, h]

/-- Appending distinct suffixes to the same string yields distinct strings. -/
theorem append_suffix_ne {s : String} {a b : String} (h : a ≠ b) :
    s ++ a ≠ s ++ b := by
  intro heq
  apply h
  have h2 := congrArg String.data heq
  simp only [String.data_append] at h2
  have h3 := List.append_cancel_left h2
  exact String.ext h3

/-! ## Claim theorems -/

/-- C1: `instanceId` is pure and deterministic (it is a function of its two
arguments alone); for the same user the REVOKE and EXPIRE targets yield the
identical id of the form `{userId}-REVOKE` (also agreeing with
`makeRevokeCgnOrchestratorId`), while ACTIVATE yields a different id. -/
theorem instanceId_shared_revoke_namespace (fiscalCode : FiscalCode) :
    makeUpdateCgnOrchestratorId fiscalCode CgnStatusEnum.REVOKED =
        fiscalCode ++ "-REVOKE" ∧
    makeUpdateCgnOrchestratorId fiscalCode CgnStatusEnum.EXPIRED =
        makeUpdateCgnOrchestratorId fiscalCode CgnStatusEnum.REVOKED ∧
    makeRevokeCgnOrchestratorId fiscalCode =
        makeUpdateCgnOrchestratorId fiscalCode CgnStatusEnum.REVOKED ∧
    makeUpdateCgnOrchestratorId fiscalCode CgnStatusEnum.ACTIVATED ≠
        makeUpdateCgnOrchestratorId fiscalCode CgnStatusEnum.REVOKED := by
  refine ⟨rfl, rfl, rfl, ?_⟩
  exact append_suffix_ne (by decide)

/-- C4: `toTransientFailure` returns kind TRANSIENT with reason exactly
`TRANSIENT FAILURE|ERROR=<customReason> DETAIL=<message>` when a custom
reason is given and `TRANSIENT FAILURE|ERROR=<message>` otherwise;
`toPermanentFailure` produces the same shapes under the `PERMANENT FAILURE|`
prefix with kind PERMANENT. -/
theorem failure_classifier_reason_format (m c : String) :
    toTransientFailure m (some c) =
      { kind := FailureKind.TRANSIENT
        reason := "TRANSIENT FAILURE|ERROR=" ++ c ++ " DETAIL=" ++ m } ∧
    toTransientFailure m none =
      { kind := FailureKind.TRANSIENT
        reason := "TRANSIENT FAILURE|ERROR=" ++ m } ∧
    toPermanentFailure m (some c) =
      { kind := FailureKind.PERMANENT
        reason := "PERMANENT FAILURE|ERROR=" ++ c ++ " DETAIL=" ++ m } ∧
    toPermanentFailure m none =
      { kind := FailureKind.PERMANENT
        reason := "PERMANENT FAILURE|ERROR=" ++ m } := by
  refine ⟨?_, ?_, ?_, ?_⟩ <;>
    simp only [toTransientFailure, toPermanentFailure, Option.map_some',
      Option.map_none', Option.getD_some, Option.getD_none, Failure.mk.injEq,
      true_and] <;>
    simp only [← String.append_assoc] <;>
    first
      | rw [show "TRANSIENT FAILURE|" ++ "ERROR=" = "TRANSIENT FAILURE|ERROR=" from rfl]
      | rw [show "PERMANENT FAILURE|" ++ "ERROR=" = "PERMANENT FAILURE|ERROR=" from rfl]

/-- C5: `trackFailure` throws (propagating the reason upward, returning no
value) exactly on a TransientFailure, returns the structured
`{kind: "FAILURE", reason}` result exactly on a PermanentFailure, and these
two cases are exhaustive over the two-variant union. -/
theorem trackFailure_retry_or_terminal (f : Failure) :
    (TransientFailure.is f = true →
      trackFailure f = TrackOutcome.thrown f.reason) ∧
    (PermanentFailure.is f = true →
      trackFailure f =
        TrackOutcome.returned { kind := "FAILURE", reason := f.reason }) ∧
    (TransientFailure.is f = true ∨ PermanentFailure.is f = true) := by
  obtain ⟨kind, reason⟩ := f
  cases kind <;>
    simp [trackFailure, TransientFailure.is, PermanentFailure.is]

/-- Witness for C5 at a concrete permanent failure. -/
theorem trackFailure_retry_or_terminal_witness :
    trackFailure { kind := FailureKind.PERMANENT, reason := "boom" } =
      TrackOutcome.returned { kind := "FAILURE", reason := "boom" } :=
  (trackFailure_retry_or_terminal
    { kind := FailureKind.PERMANENT, reason := "boom" }).2.1 rfl

/-- C8: `isOrchestratorRunning` passes a `getStatus` error through as a Left;
on success the returned record keeps the runtime status and its `isRunning`
flag is true exactly when the runtime status is Running or Pending. -/
theorem isOrchestratorRunning_spec
    (getStatusResult : Except String DurableOrchestrationStatus) :
    (∀ e, getStatusResult = Except.error e →
      isOrchestratorRunning getStatusResult = Except.error e) ∧
    (∀ status, getStatusResult = Except.ok status →
      ∃ res, isOrchestratorRunning getStatusResult = Except.ok res ∧
        res.runtimeStatus = status.runtimeStatus ∧
        (res.isRunning = true ↔
          (status.runtimeStatus = OrchestrationRuntimeStatus.Running ∨
            status.runtimeStatus = OrchestrationRuntimeStatus.Pending))) := by
  constructor
  · intro e h
    subst h
    rfl
  · intro status h
    subst h
    refine ⟨_, rfl, rfl, ?_⟩
    obtain ⟨rs⟩ := status
    cases rs <;> simp [isOrchestratorRunning]

/-- Witness for C8 at a Completed status and at an error result. -/
theorem isOrchestratorRunning_spec_witness :
    isOrchestratorRunning (Except.error "getStatus failed") =
      Except.error "getStatus failed" ∧
    ∃ res,
      isOrchestratorRunning
          (Except.ok { runtimeStatus := OrchestrationRuntimeStatus.Completed }) =
        Except.ok res ∧ res.isRunning = false := by
  constructor
  · exact (isOrchestratorRunning_spec (Except.error "getStatus failed")).1
      "getStatus failed" rfl
  · obtain ⟨res, hres, -, hiff⟩ :=
      (isOrchestratorRunning_spec
        (Except.ok { runtimeStatus := OrchestrationRuntimeStatus.Completed })).2
        { runtimeStatus := OrchestrationRuntimeStatus.Completed } rfl
    refine ⟨res, hres, ?_⟩
    cases h : res.isRunning
    · rfl
    · rcases hiff.mp h with h2 | h2 <;> exact absurd h2 (by decide)

/-- C3 counterexample: a shape-valid ACTIVATE request (existing user record,
no running instance, start would succeed) is answered with
ForbiddenNotAuthorized, contradicting the claim that the handler accepts
every ACTIVATE request and never returns Forbidden for it. -/
theorem upsert_activate_forbidden_counterexample :
    UpsertCgnStatusHandler "RODFDS82S10H501T"
        { action := ActionEnum.ACTIVATE, revocation_reason := none }
        (Except.ok (some ()))
        (Except.ok { runtimeStatus := OrchestrationRuntimeStatus.Completed })
        true =
      UpsertResponse.forbiddenNotAuthorized := by
  rfl

/-- C3 amended: the handler guards on the revocation-request shape, so every
request with action == ACTIVATE is answered ForbiddenNotAuthorized, and
Forbidden is returned exactly when the payload fails the
CgnStatusRevocationRequest check; `toCgnStatus` does map any non-REVOKE
action to `{status: PENDING}`, but through the handler that branch is
unreachable. -/
theorem upsert_forbidden_iff_not_revocation (fiscalCode : FiscalCode)
    (cgnStatusUpsertRequest : CgnStatusUpsertRequest)
    (findLastVersionResult : Except String (Option Unit))
    (guardStatusResult : Except String DurableOrchestrationStatus)
    (startOk : Bool) (now : Nat) :
    (UpsertCgnStatusHandler fiscalCode cgnStatusUpsertRequest
          findLastVersionResult guardStatusResult startOk =
        UpsertResponse.forbiddenNotAuthorized ↔
      CgnStatusRevocationRequest.is cgnStatusUpsertRequest = false) ∧
    (cgnStatusUpsertRequest.action = ActionEnum.ACTIVATE →
      UpsertCgnStatusHandler fiscalCode cgnStatusUpsertRequest
          findLastVersionResult guardStatusResult startOk =
        UpsertResponse.forbiddenNotAuthorized) ∧
    (cgnStatusUpsertRequest.action ≠ ActionEnum.REVOKE →
      toCgnStatus now cgnStatusUpsertRequest =
        { status := CgnStatusEnum.PENDING }) := by
  refine ⟨?_, ?_, ?_⟩
  · constructor
    · intro h
      by_contra his
      rw [Bool.not_eq_false] at his
      unfold UpsertCgnStatusHandler at h
      rw [if_neg (by simp [his])] at h
      rcases findLastVersionResult with e | mu
      · simp at h
      · rcases mu with _ | u
        · simp at h
        · rcases hg : checkUpdateCgnIsRunning guardStatusResult with _ | _ | e <;>
            simp only [hg] at h
          · simp at h
          · rcases startOk <;> simp at h
          · simp at h
    · intro h
      unfold UpsertCgnStatusHandler
      simp [h]
  · intro h
    unfold UpsertCgnStatusHandler
    have hfalse : CgnStatusRevocationRequest.is cgnStatusUpsertRequest = false := by
      simp [CgnStatusRevocationRequest.is, h]
    simp [hfalse]
  · intro h
    unfold toCgnStatus
    simp [h]

/-- Witness for C3 amended at a concrete ACTIVATE request. -/
theorem upsert_forbidden_iff_not_revocation_witness :
    UpsertCgnStatusHandler "AAABBB80A01H501A"
        { action := ActionEnum.ACTIVATE, revocation_reason := none }
        (Except.ok none)
        (Except.ok { runtimeStatus := OrchestrationRuntimeStatus.Running })
        false =
      UpsertResponse.forbiddenNotAuthorized :=
  (upsert_forbidden_iff_not_revocation "AAABBB80A01H501A"
      { action := ActionEnum.ACTIVATE, revocation_reason := none }
      (Except.ok none)
      (Except.ok { runtimeStatus := OrchestrationRuntimeStatus.Running })
      false 0).2.1 rfl

/-- C9 counterexample: with an error-free non-OK reply and the empty string
given as `errorMsg`, the returned error message is the default, not the given
`errorMsg` — JavaScript truthiness makes `errorMsg ? errorMsg : default` fall
back on the empty string, contradicting the claim that the message is
`errorMsg` whenever it is given. -/
theorem setWithExpirationTask_empty_errorMsg_counterexample :
    setWithExpirationTask "key" "value" 10 none (some "KO") (some "") =
      Except.error "Error setting key value pair on redis" ∧
    "Error setting key value pair on redis" ≠ "" := by
  exact ⟨rfl, by decide⟩

/-- C9 amended: `setWithExpirationTask` returns Right true iff Redis replied
"OK" without error; an error reply comes back as Left of that error; an
error-free reply other than "OK" yields Left of an Error whose message is
`errorMsg` when given and non-empty, and
"Error setting key value pair on redis" otherwise (an empty `errorMsg` falls
back to the default); the function never returns Right false. -/
theorem setWithExpirationTask_spec (key value : String)
    (expirationInSeconds : Nat) (err reply errorMsg : Option String) :
    (setWithExpirationTask key value expirationInSeconds err reply errorMsg =
        Except.ok true ↔ (err = none ∧ reply = some "OK")) ∧
    (∀ e, err = some e →
      setWithExpirationTask key value expirationInSeconds err reply errorMsg =
        Except.error e) ∧
    (err = none → reply ≠ some "OK" →
      setWithExpirationTask key value expirationInSeconds err reply errorMsg =
        Except.error (setErrorMessage errorMsg)) ∧
    (∀ s, errorMsg = some s → s ≠ "" → setErrorMessage errorMsg = s) ∧
    setErrorMessage none = "Error setting key value pair on redis" ∧
    setWithExpirationTask key value expirationInSeconds err reply errorMsg ≠
      Except.ok false := by
  refine ⟨?_, ?_, ?_, ?_, rfl, ?_⟩
  · constructor
    · intro h
      rcases err with _ | e
      · refine ⟨rfl, ?_⟩
        by_contra hr
        simp [setWithExpirationTask, falsyResponseToError, singleStringReply,
          hr] at h
      · simp [setWithExpirationTask, falsyResponseToError,
          singleStringReply] at h
    · rintro ⟨he, hr⟩
      subst he
      subst hr
      rfl
  · intro e he
    subst he
    rfl
  · intro he hr
    subst he
    simp [setWithExpirationTask, falsyResponseToError, singleStringReply, hr]
  · intro s hs hne
    subst hs
    simp [setErrorMessage, hne]
  · rcases err with _ | e
    · by_cases hr : reply = some "OK"
      · subst hr
        simp [setWithExpirationTask, falsyResponseToError, singleStringReply]
      · simp [setWithExpirationTask, falsyResponseToError, singleStringReply,
          hr]
    · simp [setWithExpirationTask, falsyResponseToError, singleStringReply]

/-- Witness for C9 amended: a clean "OK" round trip, an error reply, and a
non-OK reply with a non-empty custom message. -/
theorem setWithExpirationTask_spec_witness :
    setWithExpirationTask "k" "v" 60 none (some "OK") none = Except.ok true ∧
    setWithExpirationTask "k" "v" 60 (some "ECONNRESET") none none =
      Except.error "ECONNRESET" ∧
    setWithExpirationTask "k" "v" 60 none none (some "custom message") =
      Except.error "custom message" := by
  refine ⟨?_, ?_, ?_⟩
  · exact (setWithExpirationTask_spec "k" "v" 60 none (some "OK") none).1.mpr
      ⟨rfl, rfl⟩
  · exact (setWithExpirationTask_spec "k" "v" 60 (some "ECONNRESET") none
      none).2.1 "ECONNRESET" rfl
  · have h := (setWithExpirationTask_spec "k" "v" 60 none none
      (some "custom message")).2.2.1 rfl (by simp)
    have hmsg := (setWithExpirationTask_spec "k" "v" 60 none none
      (some "custom message")).2.2.2.1 "custom message" rfl (by decide)
    rw [h, hmsg]

/-- C6 counterexample: the scenario of the staged test
(src/DeleteEycaActivity/__tests__/handler.test.ts lines 70-88): two records
with the first delete failing. The activity makes two `deleteVersion` calls,
not the one call the claim's "exactly K calls, abort at first failure"
predicts for K = 1 — exactly what the test asserts with
`toBeCalledTimes(2)`. -/
theorem deleteEycaActivity_call_count_counterexample :
    getDeleteEycaActivityHandler true (Except.ok ["v0", "v1"])
        (fun card =>
          if card == "v0" then Except.error "Cannot delete version"
          else Except.ok ()) =
      (ActivityResult.failure "Cannot delete version", 2) ∧
    (2 : Nat) ≠ 1 := by
  exact ⟨rfl, by decide⟩

/-- Helper for C6: sequencing all-successful delete results yields a Right. -/
theorem sequenceDeleteResults_all_ok (delete : String → Except String Unit)
    (cards : List String) (h : ∀ card ∈ cards, delete card = Except.ok ()) :
    sequenceDeleteResults (cards.map delete) = Except.ok () := by
  induction cards with
  | nil => rfl
  | cons card rest ih =>
      have hc := h card (List.mem_cons_self card rest)
      have hrest := ih (fun x hx => h x (List.mem_cons_of_mem card hx))
      simp [sequenceDeleteResults, hc, hrest]

/-- Helper for C6: sequencing the delete results surfaces the first failure
in record order. -/
theorem sequenceDeleteResults_first_failure
    (delete : String → Except String Unit)
    (pre : List String) (card : String) (post : List String) (msg : String)
    (hpre : ∀ x ∈ pre, delete x = Except.ok ())
    (hcard : delete card = Except.error msg) :
    sequenceDeleteResults ((pre ++ card :: post).map delete) =
      Except.error msg := by
  induction pre with
  | nil => simp [sequenceDeleteResults, hcard]
  | cons p rest ih =>
      have hp := hpre p (List.mem_cons_self p rest)
      have hrest := ih (fun x hx => hpre x (List.mem_cons_of_mem p hx))
      simpa [sequenceDeleteResults, hp] using hrest

/-- C6 amended: the delete-all-versions activity returns FAILURE with the
underlying message and makes zero delete calls when `findAll` fails; when
`findAll` returns N records, `deleteVersion` is called once per record — N
calls in total even when a delete fails, because a delete task is built per
record before the results are sequenced — and the result is FAILURE with the
first failing delete's message when some delete fails (every earlier one
succeeding), or SUCCESS when all N deletes succeed. -/
theorem deleteEycaActivity_spec (delete : String → Except String Unit) :
    (∀ e, getDeleteEycaActivityHandler true (Except.error e) delete =
      (ActivityResult.failure e, 0)) ∧
    (∀ pre card post msg, (∀ x ∈ pre, delete x = Except.ok ()) →
      delete card = Except.error msg →
      getDeleteEycaActivityHandler true (Except.ok (pre ++ card :: post))
          delete =
        (ActivityResult.failure msg, (pre ++ card :: post).length)) ∧
    (∀ cards, (∀ card ∈ cards, delete card = Except.ok ()) →
      getDeleteEycaActivityHandler true (Except.ok cards) delete =
        (ActivityResult.success, cards.length)) := by
  refine ⟨fun e => rfl, ?_, ?_⟩
  · intro pre card post msg hpre hcard
    simp only [getDeleteEycaActivityHandler,
      sequenceDeleteResults_first_failure delete pre card post msg hpre hcard]
    simp
  · intro cards h
    simp only [getDeleteEycaActivityHandler,
      sequenceDeleteResults_all_ok delete cards h]
    simp

/-- Witness for C6 amended: three records where the second delete fails give
FAILURE with that message after three calls (one per record); a failing
findAll gives FAILURE with its message and no call; two clean records give
SUCCESS after two calls. -/
theorem deleteEycaActivity_spec_witness :
    getDeleteEycaActivityHandler true
        (Except.ok ["v0", "v1", "v2"])
        (fun card =>
          if card == "v1" then Except.error "Cannot delete version"
          else Except.ok ()) =
      (ActivityResult.failure "Cannot delete version", 3) ∧
    getDeleteEycaActivityHandler true (Except.error "Cannot retrieve data")
        (fun _ => Except.ok ()) =
      (ActivityResult.failure "Cannot retrieve data", 0) ∧
    getDeleteEycaActivityHandler true (Except.ok ["v0", "v1"])
        (fun _ => Except.ok ()) =
      (ActivityResult.success, 2) := by
  refine ⟨?_, ?_, ?_⟩
  · have h := (deleteEycaActivity_spec
      (fun card =>
        if card == "v1" then Except.error "Cannot delete version"
        else Except.ok ())).2.1 ["v0"] "v1" ["v2"] "Cannot delete version"
      (by intro x hx; rw [List.mem_singleton] at hx; subst hx; rfl) rfl
    simpa using h
  · exact (deleteEycaActivity_spec (fun _ => Except.ok ())).1
      "Cannot retrieve data"
  · exact (deleteEycaActivity_spec (fun _ => Except.ok ())).2.2 ["v0", "v1"]
      (fun card _ => rfl)

/-- C7: when the expiration-record query for today fails, the sweep logs the
error message verbose and finishes: its whole event trace is that single log
line, so no orchestration is terminated and none is started in that run. -/
theorem sweep_query_failure_no_effects (e : String)
    (termActivatedOk termRevokedOk startOk : FiscalCode → Bool) :
    getUpdateExpiredCgnHandler (Except.error e) termActivatedOk termRevokedOk
        startOk =
      [SweepEvent.logVerbose ("UpdateExpiredCgnHandler|ERROR=" ++ e)] ∧
    ∀ ev ∈ getUpdateExpiredCgnHandler (Except.error e) termActivatedOk
        termRevokedOk startOk,
      ev.isOrchestrationEffect = false := by
  refine ⟨rfl, ?_⟩
  intro ev hev
  simp only [getUpdateExpiredCgnHandler, List.mem_singleton] at hev
  subst hev
  rfl

/-- Witness for C7 at a concrete query error. -/
theorem sweep_query_failure_no_effects_witness :
    getUpdateExpiredCgnHandler (Except.error "query failed") (fun _ => true)
        (fun _ => true) (fun _ => true) =
      [SweepEvent.logVerbose "UpdateExpiredCgnHandler|ERROR=query failed"] ∧
    SweepEvent.isOrchestrationEffect
        (SweepEvent.logVerbose "UpdateExpiredCgnHandler|ERROR=query failed") =
      false := by
  have h := sweep_query_failure_no_effects "query failed" (fun _ => true)
    (fun _ => true) (fun _ => true)
  refine ⟨h.1, ?_⟩
  exact h.2 _ (by rw [h.1]; exact List.mem_singleton.mpr rfl)

/-- C2 counterexample: the sweep's terminate calls use the reason string of
src/UpdateExpiredCgn/handler.ts line 30, which is not the string quoted in
the claim. -/
theorem sweep_termination_reason_counterexample :
    ((processExpiredUser "RODFDS82S10H501T" true true true).filter
        SweepEvent.isOrchestrationEffect).head? =
      some (SweepEvent.terminate "RODFDS82S10H501T-ACTIVATE"
        "An highest priority CGN update orchestrator needs to start") ∧
    "An highest priority CGN update orchestrator needs to start" ≠
      "a higher-priority status update needs to start" := by
  exact ⟨rfl, by decide⟩

/-- C2 amended: for every user in the sweep's result set the handler runs the
per-user block, whose orchestration effects are exactly, in order: terminate
of the ACTIVATED-namespace instance, terminate of the REVOKED-namespace
instance — both with the fixed reason "An highest priority CGN update
orchestrator needs to start" — and then the start of the EXPIRED-transition
orchestration; this effect sequence is the same whatever the outcomes of the
two terminate calls and of the start call, so a terminate failure never
prevents the EXPIRE orchestration from being started. -/
theorem sweep_terminates_then_starts (fiscalCode : FiscalCode)
    (expiredCgnUsers : List FiscalCode)
    (termActivatedOk termRevokedOk startOk : FiscalCode → Bool)
    (hmem : fiscalCode ∈ expiredCgnUsers) :
    ((processExpiredUser fiscalCode (termActivatedOk fiscalCode)
        (termRevokedOk fiscalCode) (startOk fiscalCode)).filter
        SweepEvent.isOrchestrationEffect =
      [SweepEvent.terminate
          (makeUpdateCgnOrchestratorId fiscalCode CgnStatusEnum.ACTIVATED)
          ORCHESTRATION_TERMINATION_REASON,
        SweepEvent.terminate
          (makeUpdateCgnOrchestratorId fiscalCode CgnStatusEnum.REVOKED)
          ORCHESTRATION_TERMINATION_REASON,
        SweepEvent.startNew "UpdateCgnOrchestrator"
          (makeUpdateCgnOrchestratorId fiscalCode CgnStatusEnum.EXPIRED)]) ∧
    ∃ pre post,
      getUpdateExpiredCgnHandler (Except.ok expiredCgnUsers) termActivatedOk
          termRevokedOk startOk =
        pre ++
          processExpiredUser fiscalCode (termActivatedOk fiscalCode)
            (termRevokedOk fiscalCode) (startOk fiscalCode) ++ post := by
  constructor
  · cases termActivatedOk fiscalCode <;> cases termRevokedOk fiscalCode <;>
      cases startOk fiscalCode <;>
      simp [processExpiredUser, terminateOrchestratorTask,
        SweepEvent.isOrchestrationEffect, List.filter]
  · obtain ⟨l1, l2, rfl⟩ := List.append_of_mem hmem
    refine ⟨SweepEvent.logInfo
        ("UpdateExpiredCgnHandler|Processing " ++
          toString (l1 ++ fiscalCode :: l2).length ++ " expired CGNs") ::
      l1.flatMap (fun fc =>
        processExpiredUser fc (termActivatedOk fc) (termRevokedOk fc)
          (startOk fc)),
      l2.flatMap (fun fc =>
        processExpiredUser fc (termActivatedOk fc) (termRevokedOk fc)
          (startOk fc)), ?_⟩
    simp [getUpdateExpiredCgnHandler]

/-- Witness for C2 amended at a concrete user list with a failing ACTIVATED
terminate call. -/
theorem sweep_terminates_then_starts_witness :
    ((processExpiredUser "RODFDS82S10H501T" false true true).filter
        SweepEvent.isOrchestrationEffect =
      [SweepEvent.terminate "RODFDS82S10H501T-ACTIVATE"
          ORCHESTRATION_TERMINATION_REASON,
        SweepEvent.terminate "RODFDS82S10H501T-REVOKE"
          ORCHESTRATION_TERMINATION_REASON,
        SweepEvent.startNew "UpdateCgnOrchestrator"
          "RODFDS82S10H501T-REVOKE"]) ∧
    ∃ pre post,
      getUpdateExpiredCgnHandler (Except.ok ["RODFDS82S10H501T"])
          (fun _ => false) (fun _ => true) (fun _ => true) =
        pre ++ processExpiredUser "RODFDS82S10H501T" false true true ++ post :=
  sweep_terminates_then_starts "RODFDS82S10H501T" ["RODFDS82S10H501T"]
    (fun _ => false) (fun _ => true) (fun _ => true)
    (List.mem_singleton.mpr rfl)

